import Mathlib

/-!
Shallow embedding of src/validation/MountainHub.py.

Conventions used throughout:
* Python None is modelled by Option.none; a dictionary field that may be
  absent (or JSON null, indistinguishable after .get) is an Option field.
* Python numbers are modelled by ℤ / ℚ (the claims never depend on
  floating-point rounding).
* Raising an exception is modelled by Except: a function that can raise
  returns Except PError A, and the error value records which exception
  was raised and with which detail.
* HTTP responses are external input: each retrieval function takes the
  decoded response body (or a response oracle, one body per request) as
  an explicit argument.
* A calendar datetime is modelled as a rational number of seconds since
  the epoch (local-time broken-down structure abstracted away):
  date.timetuple() keeps the whole-second part, int(time.mktime(...))
  yields that whole-second count, datetime.fromtimestamp embeds seconds
  back.  Sub-second parts are the fractional part of the rational.
-/

namespace MountainHub

/-- Values that can sit in a parameter dictionary: integers or strings.
An absent value (Python None) is Option.none around this type. -/
inductive PVal where
  | int (z : ℤ)
  | str (s : String)
deriving DecidableEq, Repr

/-- Values a snowpack_depth field can carry: a JSON string or a number.
Option.none around this type covers both an absent field and JSON null
(Python dict.get returns None in both cases). -/
inductive DVal where
  | str (s : String)
  | num (q : ℚ)
deriving DecidableEq, Repr

/-- One record of a MountainHub timeline response, as consumed by
parse_snow: nested observation and actor objects. -/
structure Detail where
  snowpack_depth : Option DVal
deriving DecidableEq, Repr

structure Actor where
  full_name : Option String
  fullName : Option String
deriving DecidableEq, Repr

structure Obs where
  /-- Option.none models the details key being absent, so that the
  Python default of obs.get, a list holding one empty dict, applies; a
  list element that is Option.none models a JSON null element. -/
  details : Option (List (Option Detail))
  obs_id : String
  reported_at : ℤ
  location : List ℚ
  obs_type : String
deriving DecidableEq, Repr

structure SnowRecord where
  observation : Obs
  actor : Actor
deriving DecidableEq, Repr

/-- Body of a MountainHub timeline response: either it has a results
array, or it is some other JSON body (kept whole as the error detail). -/
inductive SnowBody where
  | withResults (rs : List SnowRecord)
  | noResults (other : String)
deriving DecidableEq, Repr

/-- One record of a Google elevation response, reduced to its elevation
value (parse_elevation only projects that field). -/
abbrev ElevRecord := ℚ

/-- Body of a Google elevation response. -/
inductive ElevBody where
  | withResults (rs : List ElevRecord)
  | noResults (other : String)
deriving DecidableEq, Repr

/-- The results key of an elevation body, when present. -/
def ElevBody.results : ElevBody → Option (List ElevRecord)
  | .withResults rs => some rs
  | .noResults _ => none

/-- Python exceptions that the embedded code can raise. -/
inductive PError where
  | nameError (missing : String)
  | valueErrorSnow (body : SnowBody)
  | valueErrorElev (body : ElevBody)
  | valueErrorStr (detail : String)
  | indexError
  | zeroDivisionError
deriving DecidableEq, Repr

/-- Embedding of batches (lines 12-20): for i in range(0, len(list),
size), yield the slice from i to i + size.  The range with step size is
enumerated as i * size for i below the ceiling of len / size; a step of
0 would raise ValueError in Python and never occurs (the callers pass
256). -/
def batches (l : List α) (size : ℕ) : List (List α) :=
  if size = 0 then []
  else (List.range ((l.length + size - 1) / size)).map fun i =>
    (l.drop (i * size)).take size

/-- Whether the module defines a global named stops.  The source file
defines no such global: the body of intervals (lines 30-33) reads the
names stop (local) and stops, and stops is bound nowhere, so iterating
the generator raises NameError. -/
def moduleGlobalStops : Option ℕ := none

/-- Embedding of intervals (lines 22-33).  The third source parameter is
named intervals (shadowing the function), but the loop bound read by the
body is the undefined name stops, so the generator raises NameError on
its first step regardless of the arguments.  The match documents the
lookup: were a global stops defined, the body would yield
start + i * (endv - start) / (stops - 1) for i = 0 .. stops - 1. -/
def intervals (start endv : ℚ) (n : ℕ) : Except PError (List ℚ) :=
  match moduleGlobalStops with
  | none => .error (.nameError "stops")
  | some stops =>
      let _ := n
      if stops = 0 then .ok []
      else if stops = 1 then .error .zeroDivisionError
      else .ok ((List.range stops).map fun i =>
        start + (i : ℚ) * (endv - start) / ((stops : ℚ) - 1))

/-- Embedding of removeEmptyParams (lines 35-41): keeps exactly the
entries whose value is not None.  Python dictionaries preserve insertion
order, so a parameter mapping is an association list. -/
def removeEmptyParams (d : List (String × Option PVal)) : List (String × Option PVal) :=
  d.filter fun kv => kv.2 ≠ none

/-- Embedding of dateToTimestamp (lines 43-51): None passes through;
otherwise the datetime is truncated to whole seconds by timetuple, and
int(time.mktime(...)) * 1000 yields a millisecond count. -/
def dateToTimestamp (date : Option ℚ) : Option ℤ :=
  match date with
  | none => none
  | some d => some (⌊d⌋ * 1000)

/-- Embedding of timestampToDate (lines 53-61): None passes through;
otherwise datetime.fromtimestamp(timestamp / 1000) is the instant at
timestamp / 1000 seconds. -/
def timestampToDate (timestamp : Option ℤ) : Option ℚ :=
  match timestamp with
  | none => none
  | some t => some ((t : ℚ) / 1000)

/-- Digit string to natural number value. -/
def digitsToNat (cs : List Char) : ℕ :=
  cs.foldl (fun a c => a * 10 + (c.toNat - 48)) 0

/-- Parses an unsigned plain decimal literal: digits, optionally with a
decimal point (digits may be empty on one side of the point but not
both).  The value is built with mkRat so that concrete runs reduce in
the kernel; mkRat n d equals the rational n / d. -/
def parseUnsigned (cs : List Char) : Option ℚ :=
  let ip := cs.takeWhile (· ≠ '.')
  let rest := cs.dropWhile (· ≠ '.')
  match rest with
  | [] => if ip ≠ [] ∧ ip.all (·.isDigit) then some (mkRat (digitsToNat ip) 1) else none
  | _ :: fp =>
      if ip.all (·.isDigit) ∧ fp.all (·.isDigit) ∧ fp.all (· ≠ '.') ∧ (ip ≠ [] ∨ fp ≠ []) then
        some (mkRat (digitsToNat ip * 10 ^ fp.length + digitsToNat fp) (10 ^ fp.length))
      else none

/-- Model of the Python builtin float applied to a string, on plain
decimal literals with an optional sign (the only forms the data of
this module exercises); other forms are treated as conversion failures. -/
def pyFloatOfString (s : String) : Option ℚ :=
  match s.data with
  | '+' :: t => parseUnsigned t
  | '-' :: t => (parseUnsigned t).map Neg.neg
  | t => parseUnsigned t

/-- Model of the Python builtin float applied to a snowpack_depth value:
numbers pass through, strings are converted or raise ValueError. -/
def pyFloat (v : DVal) : Except PError ℚ :=
  match v with
  | .num q => .ok q
  | .str s =>
      match pyFloatOfString s with
      | some q => .ok q
      | none => .error (.valueErrorStr s)

/-- Python truthiness of an optional string: None and the empty string
are falsy. -/
def pyTruthy : Option String → Bool
  | none => false
  | some s => s ≠ ""

/-- Model of the Python expression a or b on optional strings: yields a
when a is truthy, else b. -/
def pyOr (a b : Option String) : Option String :=
  if pyTruthy a then a else b

/-- Embedding of the snow_depth computation of parse_snow (lines 86-87
and 97): details defaults to a one-element list holding an empty dict
when the key is absent; the depth value is read from the first element
when the list is non-empty and that element is not null; the value is
coerced with float unless it is None or the string undefined. -/
def snow_depth_of (obs : Obs) : Except PError (Option ℚ) :=
  let details := obs.details.getD [some ⟨none⟩]
  let snow_depth : Option DVal :=
    match details with
    | [] => none
    | none :: _ => none
    | some d :: _ => d.snowpack_depth
  match snow_depth with
  | some v => if v ≠ DVal.str "undefined" then (pyFloat v).map some else .ok none
  | none => .ok none

/-- One normalized snow observation row. -/
structure SnowRow where
  author_name : Option String
  row_id : String
  timestamp : ℤ
  date : Option ℚ
  lat : ℚ
  long : ℚ
  obs_type : String
  snow_depth : Option ℚ
deriving DecidableEq, Repr

/-- Embedding of parse_snow (lines 78-98).  The output dictionary keys
are evaluated in source order; the fallible ones are location indexing
(lat at index 1 before long at index 0) and the float coercion of the
depth, which comes last. -/
def parse_snow (record : SnowRecord) : Except PError SnowRow :=
  match record.observation.location.get? 1 with
  | none => .error .indexError
  | some lat =>
    match record.observation.location.get? 0 with
    | none => .error .indexError
    | some long =>
      match snow_depth_of record.observation with
      | .error e => .error e
      | .ok sd =>
          Except.ok
            { author_name := pyOr record.actor.full_name record.actor.fullName
              row_id := record.observation.obs_id
              timestamp := record.observation.reported_at
              date := timestampToDate (some record.observation.reported_at)
              lat := lat
              long := long
              obs_type := record.observation.obs_type
              snow_depth := sd }

/-- Embedding of parse_elevation (lines 100-108): projects the elevation
field, which the elevation record model already is. -/
def parse_elevation (record : ElevRecord) : ℚ := record

/-- Whether a snow row has a null in any column (the columns the model
makes nullable), as seen by DataFrame.dropna. -/
def rowHasNull (row : SnowRow) : Bool :=
  row.author_name.isNone || row.date.isNone || row.snow_depth.isNone

/-- Embedding of snow_data (lines 110-145) from the decoded response
body on.  Request building (lines 120-131) only shapes the HTTP request,
which is abstracted into the body argument.  A body without a results
key raises ValueError carrying the whole body; otherwise every record is
parsed (the first parse error aborts the call) and rows with a null are
dropped when the filter flag is set. -/
def snow_data (filter : Bool) (body : SnowBody) : Except PError (List SnowRow) :=
  match body with
  | .noResults _ => .error (.valueErrorSnow body)
  | .withResults records => do
      let parsed ← records.mapM parse_snow
      Except.ok (if filter then parsed.filter (fun r => ¬ rowHasNull r) else parsed)

/-- The locations parameter string built by el_data for one request
(line 157): a pipe-joined list of comma-joined stringified coordinate
pairs.  It is built from the function argument points, not from the
batch of the loop. -/
def locationsParam (pstr : α → String) (points : List (α × α)) : String :=
  String.intercalate "|" (points.map fun point =>
    String.intercalate "," [pstr point.1, pstr point.2])

/-- The locations parameter of each request el_data issues, one per
batch iteration (lines 155-159).  The loop variable batch is unused in
the source body: every request carries the full input list. -/
def el_data_request_locations (pstr : α → String) (points : List (α × α)) : List String :=
  (batches points 256).map fun _batch => locationsParam pstr points

/-- One normalized elevation row. -/
structure ElevRow (α : Type) where
  lat : α
  long : α
  elevation : ℚ
deriving DecidableEq, Repr

/-- Embedding of el_data (lines 147-169).  The respond argument is the
server: it maps the locations string of a request to the decoded
response body.  Each batch iteration issues one request whose locations
string is built from the full points list; a body without results raises
ValueError carrying that body; otherwise its records are appended, and
at the end the full points list is zipped positionally against the
concatenated records. -/
def el_data (pstr : α → String) (points : List (α × α))
    (respond : String → ElevBody) : Except PError (List (ElevRow α)) := do
  let records ← (batches points 256).foldlM
    (fun (acc : List ElevRecord) _batch => do
      let locations := locationsParam pstr points
      let data := respond locations
      match data with
      | .noResults _ => Except.error (.valueErrorElev data)
      | .withResults rs => Except.ok (acc ++ rs))
    []
  Except.ok ((points.zip records).map fun pr =>
    { lat := pr.1.1, long := pr.1.2, elevation := parse_elevation pr.2 })

/-- Bounding box dictionary as used by average_elevation. -/
structure Box where
  ymin : ℚ
  ymax : ℚ
  xmin : ℚ
  xmax : ℚ
deriving DecidableEq, Repr

/-- Embedding of the mean computation of average_elevation (lines
197-200): sum of the elevations divided by their count, with Python
division raising ZeroDivisionError on an empty list. -/
def elevation_mean (elevations : List ℚ) : Except PError ℚ :=
  if elevations.length = 0 then .error .zeroDivisionError
  else .ok (elevations.sum / (elevations.length : ℚ))

/-- Embedding of average_elevation (lines 171-200).  The grid size is
capped at 16; the grid is built by iterating intervals over both axes
(the inner generator is re-created per outer point but is a constant
function of the box, so one evaluation per axis is faithful); the
respond argument is the decoded body of the one elevation request; a
body without results raises ValueError carrying it; otherwise the mean
of the returned elevations is computed. -/
def average_elevation (box : Box) (grid_size : ℕ) (respond : ElevBody) :
    Except PError ℚ := do
  let gs := min grid_size 16
  let lats ← intervals box.ymin box.ymax gs
  let longs ← intervals box.xmin box.xmax gs
  let _points := lats.flatMap fun la => longs.map fun lo => (la, lo)
  match respond with
  | .noResults _ => Except.error (.valueErrorElev respond)
  | .withResults records => elevation_mean (records.map fun record => record)

/-- Decidable equality on Except outcomes, so concrete runs of the
embedded functions can be checked by decide. -/
instance {ε α : Type} [DecidableEq ε] [DecidableEq α] : DecidableEq (Except ε α) :=
  fun x y =>
    match x, y with
    | .ok a, .ok b =>
        if h : a = b then isTrue (by rw [h]) else
          isFalse (by intro hc; cases hc; exact h rfl)
    | .error a, .error b =>
        if h : a = b then isTrue (by rw [h]) else
          isFalse (by intro hc; cases hc; exact h rfl)
    | .ok _, .error _ => isFalse (by intro hc; cases hc)
    | .error _, .ok _ => isFalse (by intro hc; cases hc)

/-! Concrete inputs used to instantiate the theorems below. -/

/-- A list of 257 integer coordinate pairs: one more than the batch size, so
el_data issues two requests; the 257th point (1, 1) is the only point of
the second batch. -/
def pts257 : List (ℤ × ℤ) := List.replicate 256 ((0 : ℤ), (0 : ℤ)) ++ [((1 : ℤ), (1 : ℤ))]

/-- An observation whose first detail carries the depth string 5.5. -/
def obsC4 : Obs :=
  { details := some [some { snowpack_depth := some (DVal.str "5.5") }]
    obs_id := "obs1"
    reported_at := 1000
    location := [10, 20]
    obs_type := "snow_conditions" }

/-- A record whose actor has a present but empty full_name next to a
non-empty fullName. -/
def recC6 : SnowRecord :=
  { observation :=
      { details := some []
        obs_id := "obs2"
        reported_at := 1000
        location := [10, 20]
        obs_type := "snow_conditions" }
    actor := { full_name := some "", fullName := some "Bob" } }

/-- A record whose actor has no full_name and fullName Ann. -/
def recC6w : SnowRecord :=
  { observation :=
      { details := some []
        obs_id := "obs3"
        reported_at := 1000
        location := [10, 20]
        obs_type := "snow_conditions" }
    actor := { full_name := none, fullName := some "Ann" } }

/-- The row parse_snow produces for recC6w. -/
def rowC6w : SnowRow :=
  { author_name := some "Ann"
    row_id := "obs3"
    timestamp := 1000
    date := timestampToDate (some 1000)
    lat := 20
    long := 10
    obs_type := "snow_conditions"
    snow_depth := none }

/-- A record whose location is the pair [10, 20]: longitude 10 first,
latitude 20 second. -/
def recC9 : SnowRecord :=
  { observation :=
      { details := some []
        obs_id := "obs4"
        reported_at := 2000
        location := [10, 20]
        obs_type := "snow_conditions" }
    actor := { full_name := some "Cam", fullName := none } }

/-- The row parse_snow produces for recC9. -/
def rowC9 : SnowRow :=
  { author_name := some "Cam"
    row_id := "obs4"
    timestamp := 2000
    date := timestampToDate (some 2000)
    lat := 20
    long := 10
    obs_type := "snow_conditions"
    snow_depth := none }

/-! Theorems. -/

/-- Shared shape lemma: a successful parse_snow call determines the row
from the record: the coordinates come from location indices 1 and 0,
the depth from snow_depth_of, and the remaining fields are direct
projections. -/
lemma parse_snow_ok (r : SnowRecord) (row : SnowRow)
    (h : parse_snow r = Except.ok row) :
    ∃ la lo sd, r.observation.location.get? 1 = some la ∧
      r.observation.location.get? 0 = some lo ∧
      snow_depth_of r.observation = Except.ok sd ∧
      row = { author_name := pyOr r.actor.full_name r.actor.fullName
              row_id := r.observation.obs_id
              timestamp := r.observation.reported_at
              date := timestampToDate (some r.observation.reported_at)
              lat := la
              long := lo
              obs_type := r.observation.obs_type
              snow_depth := sd } := by
  unfold parse_snow at h
  cases h1 : r.observation.location.get? 1 with
  | none => rw [h1] at h; exact absurd h (by simp)
  | some la =>
    rw [h1] at h
    cases h2 : r.observation.location.get? 0 with
    | none => rw [h2] at h; exact absurd h (by simp)
    | some lo =>
      rw [h2] at h
      cases h3 : snow_depth_of r.observation with
      | error e => rw [h3] at h; exact absurd h (by simp)
      | ok sd =>
        rw [h3] at h
        simp only [Except.ok.injEq] at h
        exact ⟨la, lo, sd, rfl, rfl, rfl, h.symm⟩

/-- C7: both timestamp conversions return the absent marker (None)
unchanged when given it, as a pass-through rather than an error. -/
theorem claim_C7_absent_passthrough :
    dateToTimestamp none = none ∧ timestampToDate none = none :=
  ⟨rfl, rfl⟩

/-- C3: converting a whole-second datetime to a millisecond epoch with
dateToTimestamp and back with timestampToDate returns the original
datetime, and dateToTimestamp truncates every datetime to its
whole-second part (its floor) before converting. -/
theorem claim_C3_epoch_roundtrip :
    (∀ d : ℤ, timestampToDate (dateToTimestamp (some (d : ℚ))) = some ((d : ℚ))) ∧
    (∀ q : ℚ, dateToTimestamp (some q) = dateToTimestamp (some ((⌊q⌋ : ℤ) : ℚ))) := by
  constructor
  · intro d
    simp only [dateToTimestamp, timestampToDate, Int.floor_intCast, Option.some.injEq]
    push_cast
    field_simp
  · intro q
    simp [dateToTimestamp, Int.floor_intCast]

/-- C8: removeEmptyParams keeps exactly the entries whose value is not
the absent sentinel None; zero-valued entries are kept, and the mapping
with a maps-to 1, b maps-to None, c maps-to 0 reduces to a maps-to 1,
c maps-to 0. -/
theorem claim_C8_remove_empty_params :
    (∀ (d : List (String × Option PVal)) (k : String) (v : Option PVal),
        (k, v) ∈ removeEmptyParams d ↔ (k, v) ∈ d ∧ v ≠ none) ∧
    removeEmptyParams [("a", some (.int 1)), ("b", none), ("c", some (.int 0))] =
      [("a", some (.int 1)), ("c", some (.int 0))] := by
  refine ⟨?_, by decide⟩
  intro d k v
  simp [removeEmptyParams, List.mem_filter]

/-- C2: the grid generation does not produce a lattice: the body of
intervals reads the undefined name stops, so its generator raises
NameError on its first step, and average_elevation propagates that
NameError for every box, including the unit box with grid size 2 where
the claim expects the four corner points. -/
theorem claim_C2_grid_name_error :
    intervals 0 1 2 = Except.error (PError.nameError "stops") ∧
    average_elevation ⟨0, 1, 0, 1⟩ 2 (.withResults [5]) =
      Except.error (PError.nameError "stops") :=
  ⟨rfl, rfl⟩

/-- C10: whenever the results array is present but empty,
average_elevation yields an error, never a number; and the mean step
itself (sum divided by count, no emptiness guard) raises
ZeroDivisionError on an empty elevation list. -/
theorem claim_C10_empty_results_error :
    (∀ (box : Box) (gs : ℕ) (respond : ElevBody), respond.results = some [] →
        ∃ e, average_elevation box gs respond = Except.error e) ∧
    elevation_mean [] = Except.error PError.zeroDivisionError := by
  refine ⟨?_, rfl⟩
  intro box gs respond _h
  exact ⟨.nameError "stops", rfl⟩

/-- Witness for C10 at the unit box, grid size 16 and a response whose
results array is present but empty. -/
theorem claim_C10_empty_results_error_witness :
    ∃ e, average_elevation ⟨0, 1, 0, 1⟩ 16 (.withResults []) = Except.error e :=
  claim_C10_empty_results_error.1 ⟨0, 1, 0, 1⟩ 16 (.withResults []) rfl

/-- C5: snow_data and el_data fail on a body without a results key by
raising ValueError carrying that whole body; average_elevation instead
raises NameError for the undefined name stops before any request is
issued, so its error does not carry the response body. -/
theorem claim_C5_missing_results :
    (∀ (other : String) (filter : Bool),
        snow_data filter (.noResults other) =
          Except.error (.valueErrorSnow (.noResults other))) ∧
    (∀ other : String,
        el_data toString [((1 : ℤ), (2 : ℤ))] (fun _ => ElevBody.noResults other) =
          Except.error (.valueErrorElev (.noResults other))) ∧
    (∀ other : String,
        average_elevation ⟨0, 1, 0, 1⟩ 2 (.noResults other) =
          Except.error (.nameError "stops")) ∧
    (∀ other : String,
        PError.nameError "stops" ≠ PError.valueErrorElev (.noResults other)) := by
  refine ⟨fun other filter => rfl, fun other => rfl, fun other => rfl, ?_⟩
  intro other h
  cases h

/-- C4: the snow_depth column of a parsed row is null when the details
list is empty, when its first element is null, when the snowpack_depth
field is absent or null (also when the details key itself is absent, in
which case the default empty dict applies), or when it is the string
undefined; otherwise it is the outcome of the float coercion of the
value. -/
theorem claim_C4_snow_depth :
    (∀ (r : SnowRecord) (row : SnowRow), parse_snow r = Except.ok row →
        snow_depth_of r.observation = Except.ok row.snow_depth) ∧
    (∀ obs : Obs, obs.details = some [] → snow_depth_of obs = Except.ok none) ∧
    (∀ (obs : Obs) (rest : List (Option Detail)), obs.details = some (none :: rest) →
        snow_depth_of obs = Except.ok none) ∧
    (∀ (obs : Obs) (d : Detail) (rest : List (Option Detail)),
        obs.details = some (some d :: rest) → d.snowpack_depth = none →
        snow_depth_of obs = Except.ok none) ∧
    (∀ obs : Obs, obs.details = none → snow_depth_of obs = Except.ok none) ∧
    (∀ (obs : Obs) (d : Detail) (rest : List (Option Detail)),
        obs.details = some (some d :: rest) →
        d.snowpack_depth = some (DVal.str "undefined") →
        snow_depth_of obs = Except.ok none) ∧
    (∀ (obs : Obs) (d : Detail) (rest : List (Option Detail)) (v : DVal),
        obs.details = some (some d :: rest) → d.snowpack_depth = some v →
        v ≠ DVal.str "undefined" →
        snow_depth_of obs = (pyFloat v).map some) := by
  refine ⟨?_, ?_, ?_, ?_, ?_, ?_, ?_⟩
  · intro r row h
    obtain ⟨la, lo, sd, _, _, h3, hrow⟩ := parse_snow_ok r row h
    rw [hrow]
    exact h3
  · intro obs hdet
    simp [snow_depth_of, hdet]
  · intro obs rest hdet
    simp [snow_depth_of, hdet]
  · intro obs d rest hdet hsp
    simp [snow_depth_of, hdet, hsp]
  · intro obs hdet
    simp [snow_depth_of, hdet]
  · intro obs d rest hdet hsp
    simp [snow_depth_of, hdet, hsp]
  · intro obs d rest v hdet hsp hne
    simp [snow_depth_of, hdet, hsp, hne]

/-- Witness for C4: a detail carrying the depth string 5.5 is coerced,
and the coercion yields 11 / 2. -/
theorem claim_C4_snow_depth_witness :
    snow_depth_of obsC4 = (pyFloat (DVal.str "5.5")).map some ∧
    (pyFloat (DVal.str "5.5")).map some = Except.ok (some (mkRat 11 2)) ∧
    mkRat 11 2 = (11 : ℚ) / 2 :=
  ⟨claim_C4_snow_depth.2.2.2.2.2.2 obsC4 ⟨some (DVal.str "5.5")⟩ []
      (DVal.str "5.5") rfl rfl (by decide),
    by decide,
    by rw [Rat.mkRat_eq_div]; norm_num⟩

/-- Counterexample for C6: the actor of recC6 has full_name present (the
empty string) and fullName Bob, yet the parsed author_name is Bob, not
the present full_name value, because the Python expression a or b also
discards a present-but-falsy a. -/
theorem claim_C6_counterexample :
    recC6.actor.full_name = some "" ∧
    (parse_snow recC6).map SnowRow.author_name = Except.ok (some "Bob") ∧
    (some "Bob" : Option String) ≠ some "" :=
  ⟨rfl, rfl, by decide⟩

/-- C6 as amended: author_name is the Python or of full_name and
fullName: the full_name value whenever it is present and non-empty,
otherwise the fullName value (present-but-empty full_name also falls
back); the result is null exactly when full_name is absent or empty and
fullName is absent. -/
theorem claim_C6_author_name :
    (∀ (r : SnowRecord) (row : SnowRow), parse_snow r = Except.ok row →
        row.author_name = pyOr r.actor.full_name r.actor.fullName) ∧
    (∀ a b : Option String, pyTruthy a = true → pyOr a b = a) ∧
    (∀ a b : Option String, pyTruthy a = false → pyOr a b = b) ∧
    (∀ a b : Option String, pyOr a b = none ↔ pyTruthy a = false ∧ b = none) := by
  refine ⟨?_, ?_, ?_, ?_⟩
  · intro r row h
    obtain ⟨la, lo, sd, _, _, _, hrow⟩ := parse_snow_ok r row h
    rw [hrow]
  · intro a b ha
    simp [pyOr, ha]
  · intro a b ha
    simp [pyOr, ha]
  · intro a b
    constructor
    · intro h
      cases ha : pyTruthy a with
      | false =>
          rw [pyOr, if_neg (by simp [ha])] at h
          exact ⟨rfl, h⟩
      | true =>
          rw [pyOr, if_pos (by simp [ha])] at h
          rw [h] at ha
          simp [pyTruthy] at ha
    · rintro ⟨ha, hb⟩
      rw [pyOr, if_neg (by simp [ha])]
      exact hb

/-- Witness for C6 as amended: for the record recC6w (no full_name,
fullName Ann) the parsed author_name is the Python or of the two
fields. -/
theorem claim_C6_author_name_witness :
    rowC6w.author_name = pyOr recC6w.actor.full_name recC6w.actor.fullName :=
  claim_C6_author_name.1 recC6w rowC6w (by rfl)

/-- C9: when the location field is the pair longitude-first, the parsed
row has lat equal to the second element and long equal to the first. -/
theorem claim_C9_lat_long_swap :
    ∀ (r : SnowRecord) (row : SnowRow) (lng la : ℚ),
      r.observation.location = [lng, la] →
      parse_snow r = Except.ok row →
      row.lat = la ∧ row.long = lng := by
  intro r row lng la hloc h
  obtain ⟨la2, lo2, sd, h1, h2, _, hrow⟩ := parse_snow_ok r row h
  rw [hloc] at h1 h2
  simp only [List.get?, Option.some.injEq] at h1 h2
  rw [hrow]
  exact ⟨h1.symm, h2.symm⟩

/-- Witness for C9: the record with location [10, 20] parses to a row
with lat 20 and long 10. -/
theorem claim_C9_lat_long_swap_witness :
    rowC9.lat = 20 ∧ rowC9.long = 10 :=
  claim_C9_lat_long_swap recC9 rowC9 10 20 rfl (by rfl)

set_option maxRecDepth 20000 in
set_option maxHeartbeats 8000000 in
/-- C1: on a 257-point input the batcher does produce the two expected
batches, but both requests el_data issues carry the locations string of
the full input list, and that string differs both from the string the
first batch alone would produce and from the one the second batch alone
would produce: no request is built from only the points of its batch. -/
theorem claim_C1_full_list_in_every_request :
    batches pts257 256 = [pts257.take 256, pts257.drop 256] ∧
    el_data_request_locations toString pts257 =
      [locationsParam toString pts257, locationsParam toString pts257] ∧
    locationsParam toString pts257 ≠ locationsParam toString (pts257.take 256) ∧
    locationsParam toString pts257 ≠ locationsParam toString (pts257.drop 256) := by
  refine ⟨by decide, by decide, by decide, by decide⟩

end MountainHub
